import Mathlib

/-!
Shallow embedding of `src/excel_to_pdf.py` (repository muskansindhu/dop-scripts).

The program is a linear pipeline: read a spreadsheet into a table of string
cells, drop the "Label Number 5" column, select a fixed list of expected
columns (fatal error when none is present), and assemble a PDF table whose
rows hold the selected text cells followed by four Code128 barcode images
generated by `generate_code128_barcode`.

Modelling decisions:
- A data frame is a list of column names plus rows, each row an association
  list from column name to cell value.  `pd.read_excel` may deliver missing
  cells, so raw rows carry `Option String` values; `fillna("")` turns `none`
  into `""`.
- The third-party barcode library (`barcode.get("code128", ...)` plus the
  image writer) is modelled as a pure encoder that succeeds exactly on
  non-empty ASCII payloads and otherwise raises, which the source catches.
- Observable effects (each encoder invocation, warning prints, the PDF build
  and the success print) are recorded in an explicit event trace, and the
  fatal errors of the source (`FileNotFoundError`, `ValueError`) become the
  `Except` error branch, so "fails before any work" is a statement about the
  trace.
-/

namespace ExcelToPdf

/-! ## Strings: Python `str.strip`, `str.replace(" ", "")`, `str.lower` -/

/-- Python `str.strip()`: remove leading and trailing whitespace. -/
def stripChars (cs : List Char) : List Char :=
  ((cs.dropWhile Char.isWhitespace).reverse.dropWhile Char.isWhitespace).reverse

/-- `str(value).strip().replace(" ", "")` from line 34 of the source:
trim outer whitespace, then delete every remaining space character. -/
def cleanValue (value : String) : String :=
  ⟨(stripChars value.data).filter (fun c => decide (c ≠ ' '))⟩

/-- Python `str.lower()` on the cleaned value (ASCII payloads in practice). -/
def pyLower (s : String) : String :=
  ⟨s.data.map Char.toLower⟩

/-! ## The Symbol Encoder (`generate_code128_barcode`) -/

/-- The raster produced by the barcode library for a payload, with the
options the source passes (`module_height = 5.0`, `quiet_zone = 1`). -/
structure Raster where
  payload : String
  module_height : Nat
  quiet_zone : Nat
deriving DecidableEq, Repr

/-- A cell of the assembled table: the source appends either plain strings
or ReportLab `Image` objects (with the requested width and height). -/
inductive Cell where
  | str (s : String)
  | img (r : Raster) (width height : Nat)
deriving DecidableEq, Repr

/-- The Code128 symbology of the library encodes the full ASCII range; a
character outside it makes `barcode.get`/`write` raise, which the source
catches.  (Model of the external `python-barcode` library.) -/
def code128Encodable (s : String) : Bool :=
  s.data.all (fun c => decide (c.toNat < 128))

/-- Cause text of the modelled library exception. -/
def encodeFailureCause : String := "character not in Code128 alphabet"

/-- The warning printed on line 48 of the source for a failed value. -/
def barcodeWarning (value : String) : String :=
  "⚠️ Warning: Failed to generate barcode for '" ++ value ++ "' → "
    ++ encodeFailureCause

/-- Result of one encoder call: the cell handed back to the caller, whether
the `try` block (the actual library encoding) was entered, and the
diagnostics printed. -/
structure EncodeResult where
  cell : Cell
  attempted : Bool
  diags : List String
deriving DecidableEq, Repr

/-- `generate_code128_barcode(value, width=80, height=25)` (lines 16–49):
clean the value; return `""` for empty/"nan" data without encoding;
otherwise encode with the library and wrap the raster in an `Image` sized
`width × height`, or catch the exception, print a warning and return `""`. -/
def generate_code128_barcode (value : String) (width height : Nat) :
    EncodeResult :=
  let cleaned := cleanValue value
  if cleaned = "" ∨ pyLower cleaned = "nan" then
    { cell := .str "", attempted := false, diags := [] }
  else if code128Encodable cleaned then
    { cell := .img { payload := cleaned, module_height := 5, quiet_zone := 1 }
        width height,
      attempted := true, diags := [] }
  else
    { cell := .str "", attempted := true, diags := [barcodeWarning value] }

/-! ## Data frames -/

/-- A row after `fillna("").astype(str)`: column name to string value. -/
abbrev Row := List (String × String)

/-- A raw row as delivered by `pd.read_excel`: cells may be missing. -/
abbrev RawRow := List (String × Option String)

/-- A loaded data frame of string cells. -/
structure DF where
  cols : List String
  rows : List Row
deriving DecidableEq, Repr

/-- A raw data frame as delivered by `pd.read_excel`. -/
structure RawDF where
  cols : List String
  rows : List RawRow
deriving DecidableEq, Repr

/-- `row.get(col, dflt)`: first value stored under `col`, else the default. -/
def rowGet (r : Row) (c : String) (dflt : String) : String :=
  match r.find? (fun p => p.1 == c) with
  | some p => p.2
  | none => dflt

/-- The string value of a raw cell after `fillna("")`: missing cell or
missing column both read as `""`. -/
def rawCell (r : RawRow) (c : String) : String :=
  match r.find? (fun p => p.1 == c) with
  | some p => p.2.getD ""
  | none => ""

/-- One row through `df.fillna("").astype(str)`. -/
def fillRow (r : RawRow) : Row :=
  r.map (fun p => (p.1, p.2.getD ""))

/-- `df = df.fillna("").astype(str)` (line 73). -/
def fillna_astype (raw : RawDF) : DF :=
  { cols := raw.cols, rows := raw.rows.map fillRow }

/-- `df.drop(columns=[c])`: remove the column and its cells. -/
def dropCol (df : DF) (c : String) : DF :=
  { cols := df.cols.filter (fun x => decide (x ≠ c)),
    rows := df.rows.map (fun r => r.filter (fun p => decide (p.1 ≠ c))) }

/-- Lines 76–77: remove "Label Number 5" if present. -/
def dropLN5 (df : DF) : DF :=
  if "Label Number 5" ∈ df.cols then dropCol df "Label Number 5" else df

/-- Lines 79–83: the fixed expected-column list. -/
def expected_cols : List String :=
  ["S.No.", "Applicant No", "Artisan Name",
   "Label Number 1", "Label Number 2",
   "Label Number 3", "Label Number 4"]

/-- Line 85: `[col for col in expected_cols if col in df.columns]`. -/
def availableCols (df : DF) : List String :=
  expected_cols.filter (fun c => decide (c ∈ df.cols))

/-- `df = df[available_cols]` (line 90): keep the selected columns, in the
selected order. -/
def projectCols (df : DF) (cs : List String) : DF :=
  { cols := cs,
    rows := df.rows.map (fun r => cs.map (fun c => (c, rowGet r c ""))) }

/-! ## The pipeline (`excel_to_barcode_pdf`) -/

/-- Line 93: `[f"Label {i} Barcode" for i in range(1, 5)]`. -/
def barcode_headers : List String :=
  (List.range 4).map (fun i => "Label " ++ toString (i + 1) ++ " Barcode")

/-- The fatal errors the source raises: `FileNotFoundError` wrapping a read
failure (line 71) and `ValueError` for the schema error (line 88). -/
inductive PipelineError where
  | fileNotFound (msg : String)
  | valueError (msg : String)
deriving DecidableEq, Repr

/-- Observable events of a run, in execution order. -/
inductive Event where
  | encodeCall (value : String)
  | warn (msg : String)
  | pdfBuild (path : String)
  | info (msg : String)
deriving DecidableEq, Repr

/-- The written PDF: its path and the assembled table data. -/
structure PDFFile where
  path : String
  tableData : List (List Cell)
deriving DecidableEq, Repr

/-- Outcome of a run: the trace of observable events plus either the
written file or the fatal error. -/
structure RunResult where
  trace : List Event
  outcome : Except PipelineError PDFFile
deriving Repr

/-- Lines 99–108, one row: the selected text cells, then for `i` in 1..4 the
encoder result on `row.get(f"Label Number {i}", "")` with the default
dimensions (width 80, height 25); also the events of the four calls. -/
def processRow (avail : List String) (r : Row) : List Cell × List Event :=
  let texts := avail.map (fun c => Cell.str (rowGet r c ""))
  let steps := ((List.range 4).map (fun i => i + 1)).map (fun i =>
    let v := rowGet r ("Label Number " ++ toString i) ""
    let res := generate_code128_barcode v 80 25
    (res.cell, Event.encodeCall v :: res.diags.map Event.warn))
  (texts ++ steps.map Prod.fst, (steps.map Prod.snd).flatten)

/-- Lines 93–108: header row followed by one assembled row per data row. -/
def buildTableData (avail : List String) (rows : List Row) :
    List (List Cell) :=
  ((avail ++ barcode_headers).map Cell.str)
    :: rows.map (fun r => (processRow avail r).1)

/-- The events of the row loop, in row order. -/
def rowEvents (avail : List String) (rows : List Row) : List Event :=
  (rows.map (fun r => (processRow avail r).2)).flatten

/-- `excel_to_barcode_pdf(input_excel, output_pdf)` (lines 52–128).  The
result of `pd.read_excel` is passed in as an `Except` (the external read
either yields a raw frame or raises with a message). -/
def excel_to_barcode_pdf (readResult : Except String RawDF)
    (input_excel : String) (output_pdf : String) : RunResult :=
  match readResult with
  | .error exc =>
      { trace := [],
        outcome := .error (.fileNotFound
          ("Unable to read Excel file '" ++ input_excel ++ "': " ++ exc)) }
  | .ok raw =>
      let df := dropLN5 (fillna_astype raw)
      let available_cols := availableCols df
      if available_cols.isEmpty then
        { trace := [],
          outcome := .error
            (.valueError "❌ No expected columns found in Excel file.") }
      else
        let df2 := projectCols df available_cols
        { trace := rowEvents available_cols df2.rows
            ++ [Event.pdfBuild output_pdf,
                Event.info ("✅ PDF successfully created: " ++ output_pdf)],
          outcome := .ok
            { path := output_pdf,
              tableData := buildTableData available_cols df2.rows } }

/-- Python `str.strip()` on a string (the claim's "trimming leading/trailing
whitespace", without the internal-space removal). -/
def pyStrip (s : String) : String :=
  ⟨stripChars s.data⟩

/-- Rewrite the cells stored under column `a` of one raw row with `f`,
leaving every other entry untouched. -/
def mapRowCol (a : String) (f : Option String → Option String)
    (r : RawRow) : RawRow :=
  r.map (fun p => if p.1 == a then (p.1, f p.2) else p)

/-- A raw frame with the same columns but the content of column `a`
rewritten by `f` in every row: used to state that the output is independent
of the content of a column. -/
def mapColRaw (raw : RawDF) (a : String) (f : Option String → Option String) :
    RawDF :=
  { cols := raw.cols, rows := raw.rows.map (mapRowCol a f) }

/-- The row as it stands after `fillna` and the conditional drop of
"Label Number 5" — the row the column projection reads.  `cols` are the
frame's column names, on which the drop condition is decided. -/
def loadedRow (cols : List String) (rr : RawRow) : Row :=
  if "Label Number 5" ∈ cols then
    (fillRow rr).filter (fun p => decide (p.1 ≠ "Label Number 5"))
  else fillRow rr

/-- The input table of the specification's worked scenario: columns
`S.No.`, `Artisan Name`, `Label Number 1` with rows ("1","Alice","AB123")
and ("2","Bob",""). -/
def sampleRaw : RawDF :=
  { cols := ["S.No.", "Artisan Name", "Label Number 1"],
    rows := [[("S.No.", some "1"), ("Artisan Name", some "Alice"),
              ("Label Number 1", some "AB123")],
             [("S.No.", some "2"), ("Artisan Name", some "Bob"),
              ("Label Number 1", some "")]] }

/-- A small input table carrying a "Label Number 5" column. -/
def sampleLN5 : RawDF :=
  { cols := ["S.No.", "Label Number 5"],
    rows := [[("S.No.", some "1"), ("Label Number 5", some "X")]] }

end ExcelToPdf

namespace ExcelToPdf

/-! ## Helper lemmas -/

theorem isEmpty_false_of_ne_nil {α : Type} {l : List α} (h : l ≠ []) :
    l.isEmpty = false := by
  cases l with
  | nil => exact absurd rfl h
  | cons a l => rfl

theorem expected_ne_LN5 : ∀ c ∈ expected_cols, c ≠ "Label Number 5" := by
  decide

/-- After dropping "Label Number 5", a column of the fixed expected list is
available exactly when it is present in the raw input. -/
theorem availableCols_pipeline (raw : RawDF) :
    availableCols (dropLN5 (fillna_astype raw))
      = expected_cols.filter (fun c => decide (c ∈ raw.cols)) := by
  unfold dropLN5
  by_cases h : "Label Number 5" ∈ (fillna_astype raw).cols
  · simp only [if_pos h]
    unfold availableCols dropCol fillna_astype
    refine List.filter_congr ?_
    intro c hc
    have hc5 : c ≠ "Label Number 5" := expected_ne_LN5 c hc
    rw [decide_eq_decide]
    simp [List.mem_filter, hc5]
  · simp only [if_neg h]
    rfl

theorem rowGet_nil (c d : String) : rowGet [] c d = d := rfl

theorem rowGet_cons (p : String × String) (r : Row) (c d : String) :
    rowGet (p :: r) c d = if p.1 == c then p.2 else rowGet r c d := by
  by_cases h : (p.1 == c) = true
  · simp [rowGet, List.find?_cons_of_pos, h]
  · simp only [Bool.not_eq_true] at h
    simp [rowGet, List.find?_cons_of_neg, h]

theorem rawCell_cons (p : String × Option String) (r : RawRow) (c : String) :
    rawCell (p :: r) c = if p.1 == c then p.2.getD "" else rawCell r c := by
  by_cases h : (p.1 == c) = true
  · simp [rawCell, List.find?_cons_of_pos, h]
  · simp only [Bool.not_eq_true] at h
    simp [rawCell, List.find?_cons_of_neg, h]

theorem rowGet_map_mk (cs : List String) (g : String → String) (x d : String) :
    rowGet (cs.map (fun c => (c, g c))) x d = if x ∈ cs then g x else d := by
  induction cs with
  | nil => simp [rowGet_nil]
  | cons c cs ih =>
    simp only [List.map_cons, rowGet_cons, ih]
    by_cases hc : c = x
    · subst hc
      simp
    · have hxc : ¬ x = c := fun he => hc he.symm
      simp [hc, hxc, List.mem_cons]

theorem rowGet_filter_ne (r : Row) (a c d : String) (h : c ≠ a) :
    rowGet (r.filter (fun p => decide (p.1 ≠ a))) c d = rowGet r c d := by
  induction r with
  | nil => rfl
  | cons p r ih =>
    rw [List.filter_cons]
    by_cases hp : p.1 = a
    · have hbeq : (p.1 == c) = false := by
        rw [hp]
        exact beq_eq_false_iff_ne.mpr (Ne.symm h)
      rw [if_neg (by simp [hp]), rowGet_cons, hbeq, ih]
      simp
    · rw [if_pos (by simp [hp]), rowGet_cons, rowGet_cons, ih]

theorem rowGet_fillRow (r : RawRow) (c : String) :
    rowGet (fillRow r) c "" = rawCell r c := by
  induction r with
  | nil => rfl
  | cons p r ih =>
    rw [fillRow, List.map_cons, rowGet_cons, rawCell_cons, ← fillRow, ih]

theorem rawCell_not_mem (r : RawRow) (c : String) (h : ∀ p ∈ r, p.1 ≠ c) :
    rawCell r c = "" := by
  induction r with
  | nil => rfl
  | cons p r ih =>
    have hb : (p.1 == c) = false := beq_eq_false_iff_ne.mpr (h p (by simp))
    rw [rawCell_cons, hb, ih (fun q hq => h q (by simp [hq]))]
    simp

theorem fillRow_cons (p : String × Option String) (r : RawRow) :
    fillRow (p :: r) = (p.1, p.2.getD "") :: fillRow r := rfl

theorem mapRowCol_cons (a : String) (f : Option String → Option String)
    (p : String × Option String) (r : RawRow) :
    mapRowCol a f (p :: r)
      = (if p.1 == a then (p.1, f p.2) else p) :: mapRowCol a f r := rfl

/-- Rewriting the cells of column `a` makes no difference once that column
is filtered out of a row. -/
theorem fillRow_mapRowCol_filter (a : String)
    (f : Option String → Option String) (r : RawRow) :
    (fillRow (mapRowCol a f r)).filter (fun p => decide (p.1 ≠ a))
      = (fillRow r).filter (fun p => decide (p.1 ≠ a)) := by
  induction r with
  | nil => rfl
  | cons p r ih =>
    rw [mapRowCol_cons]
    by_cases hp : (p.1 == a) = true
    · have hpa : p.1 = a := eq_of_beq hp
      rw [if_pos hp, fillRow_cons, fillRow_cons, List.filter_cons,
        List.filter_cons, if_neg (by simp [hpa]), if_neg (by simp [hpa]), ih]
    · have hpa : p.1 ≠ a := by
        intro he
        exact absurd (beq_iff_eq.mpr he) (by simpa using hp)
      rw [if_neg hp, fillRow_cons, fillRow_cons, List.filter_cons,
        List.filter_cons, if_pos (by simp [hpa]), if_pos (by simp [hpa]), ih]

/-- Rewriting the cells of column `a` does not change a lookup under any
other column name. -/
theorem rowGet_fillRow_mapRowCol (a : String)
    (f : Option String → Option String) (r : RawRow) (c d : String)
    (h : c ≠ a) :
    rowGet (fillRow (mapRowCol a f r)) c d = rowGet (fillRow r) c d := by
  induction r with
  | nil => rfl
  | cons p r ih =>
    rw [mapRowCol_cons]
    by_cases hp : (p.1 == a) = true
    · have hpa : p.1 = a := eq_of_beq hp
      have hbeq : (p.1 == c) = false := by
        rw [hpa]
        exact beq_eq_false_iff_ne.mpr (Ne.symm h)
      rw [if_pos hp, fillRow_cons, fillRow_cons, rowGet_cons, rowGet_cons]
      simp only [hbeq, Bool.false_eq_true, if_false]
      exact ih
    · rw [if_neg hp, fillRow_cons, fillRow_cons, rowGet_cons, rowGet_cons, ih]

theorem mapColRaw_cols (raw : RawDF) (a : String)
    (f : Option String → Option String) :
    (mapColRaw raw a f).cols = raw.cols := rfl

theorem mapColRaw_rows (raw : RawDF) (a : String)
    (f : Option String → Option String) :
    (mapColRaw raw a f).rows = raw.rows.map (mapRowCol a f) := rfl

theorem projectCols_rows (df : DF) (cs : List String) :
    (projectCols df cs).rows
      = df.rows.map (fun r => cs.map (fun c => (c, rowGet r c ""))) := rfl

/-- The data rows after `fillna` and the conditional drop, per input row. -/
theorem dropLN5_fill_rows (raw : RawDF) :
    (dropLN5 (fillna_astype raw)).rows = raw.rows.map (loadedRow raw.cols) := by
  simp only [dropLN5, fillna_astype]
  by_cases h : "Label Number 5" ∈ raw.cols
  · simp only [if_pos h, dropCol, List.map_map]
    refine List.map_congr_left ?_
    intro rr _
    simp [loadedRow, h, Function.comp]
  · simp only [if_neg h]
    refine List.map_congr_left ?_
    intro rr _
    simp [loadedRow, h]

/-- The value the assembled row reads for an expected column equals the raw
cell of the input row under that column (missing column or cell read as
the empty string). -/
theorem proj_cell (raw : RawDF) (rr : RawRow)
    (hk : ∀ p ∈ rr, p.1 ∈ raw.cols) (c : String) (hc : c ∈ expected_cols) :
    rowGet ((expected_cols.filter (fun x => decide (x ∈ raw.cols))).map
        (fun x => (x, rowGet (loadedRow raw.cols rr) x ""))) c ""
      = rawCell rr c := by
  rw [rowGet_map_mk]
  by_cases hin : c ∈ expected_cols.filter (fun x => decide (x ∈ raw.cols))
  · rw [if_pos hin]
    have hc5 : c ≠ "Label Number 5" := expected_ne_LN5 c hc
    unfold loadedRow
    split
    · rw [rowGet_filter_ne _ _ _ _ hc5, rowGet_fillRow]
    · rw [rowGet_fillRow]
  · rw [if_neg hin]
    have hcols : c ∉ raw.cols := fun hmem =>
      hin (List.mem_filter.mpr ⟨hc, by simpa using hmem⟩)
    exact (rawCell_not_mem rr c (fun p hp he => hcols (he ▸ hk p hp))).symm

/-- Rewriting the content of the "Label Number 5" column does not change
the rows the assembler works on. -/
theorem pipeline_rows_eq (raw : RawDF) (cs : List String)
    (hcs : ∀ c ∈ cs, c ≠ "Label Number 5")
    (f : Option String → Option String) :
    (projectCols
        (dropLN5 (fillna_astype (mapColRaw raw "Label Number 5" f))) cs).rows
      = (projectCols (dropLN5 (fillna_astype raw)) cs).rows := by
  rw [projectCols_rows, projectCols_rows, dropLN5_fill_rows,
    dropLN5_fill_rows, mapColRaw_cols, mapColRaw_rows, List.map_map,
    List.map_map, List.map_map]
  refine List.map_congr_left ?_
  intro rr _
  simp only [Function.comp]
  refine List.map_congr_left ?_
  intro c hc
  have hc5 := hcs c hc
  unfold loadedRow
  split
  · rw [fillRow_mapRowCol_filter]
  · rw [rowGet_fillRow_mapRowCol _ _ _ _ _ hc5]

/-- On a readable input with at least one expected column present, the run
reaches the success branch, whose trace and output are those of the row
loop followed by the PDF build. -/
theorem run_ok_eq (raw : RawDF) (input_excel output_pdf : String)
    (h : expected_cols.filter (fun c => decide (c ∈ raw.cols)) ≠ []) :
    excel_to_barcode_pdf (.ok raw) input_excel output_pdf =
      { trace := rowEvents
            (expected_cols.filter (fun c => decide (c ∈ raw.cols)))
            ((projectCols (dropLN5 (fillna_astype raw))
              (expected_cols.filter (fun c => decide (c ∈ raw.cols)))).rows)
          ++ [Event.pdfBuild output_pdf,
              Event.info ("✅ PDF successfully created: " ++ output_pdf)],
        outcome := .ok
          { path := output_pdf,
            tableData := buildTableData
              (expected_cols.filter (fun c => decide (c ∈ raw.cols)))
              ((projectCols (dropLN5 (fillna_astype raw))
                (expected_cols.filter (fun c => decide (c ∈ raw.cols)))).rows) } } := by
  simp [excel_to_barcode_pdf, availableCols_pipeline raw,
    isEmpty_false_of_ne_nil h]

theorem barcode_headers_eq :
    barcode_headers = ["Label 1 Barcode", "Label 2 Barcode",
      "Label 3 Barcode", "Label 4 Barcode"] := rfl

/-- The number of data rows never changes on the way to the assembled
table. -/
theorem projected_rows_length (raw : RawDF) (cs : List String) :
    ((projectCols (dropLN5 (fillna_astype raw)) cs).rows).length
      = raw.rows.length := by
  unfold projectCols dropLN5 dropCol fillna_astype
  by_cases h : "Label Number 5" ∈ raw.cols <;> simp [h]

/-! ## Claim theorems -/

/-- C6: when the spreadsheet read raises, the pipeline fails with a
source-read error that wraps the underlying cause in its message, produces
no events (no processing happens), and writes no PDF. -/
theorem C6_source_read_error (exc input_excel output_pdf : String) :
    excel_to_barcode_pdf (.error exc) input_excel output_pdf =
      { trace := [],
        outcome := .error (.fileNotFound
          ("Unable to read Excel file '" ++ input_excel ++ "': " ++ exc)) } :=
  rfl

/-- C4: when none of the seven expected columns is present, the pipeline
fails with the schema `ValueError`, its trace is empty (no encoder call, no
PDF build), and no file is produced. -/
theorem C4_schema_error (raw : RawDF) (input_excel output_pdf : String)
    (h : expected_cols.filter (fun c => decide (c ∈ raw.cols)) = []) :
    excel_to_barcode_pdf (.ok raw) input_excel output_pdf =
      { trace := [],
        outcome := .error
          (.valueError "❌ No expected columns found in Excel file.") } := by
  simp [excel_to_barcode_pdf, availableCols_pipeline raw, h]

/-- Witness for C4 at a table with only unrelated columns. -/
theorem C4_schema_error_witness :
    excel_to_barcode_pdf
        (.ok { cols := ["Foo", "Bar"],
               rows := [[("Foo", some "1"), ("Bar", none)]] })
        "in.xlsx" "out.pdf" =
      { trace := [],
        outcome := .error
          (.valueError "❌ No expected columns found in Excel file.") } :=
  C4_schema_error
    { cols := ["Foo", "Bar"], rows := [[("Foo", some "1"), ("Bar", none)]] }
    "in.xlsx" "out.pdf" (by decide)

/-- C1: whenever at least one expected column is present, the output
table's header row is the fixed expected-column list restricted to the
columns present in the input (in the fixed order, so the source column
order is irrelevant), followed by the four barcode header labels. -/
theorem C1_header_row (raw : RawDF) (input_excel output_pdf : String)
    (h : expected_cols.filter (fun c => decide (c ∈ raw.cols)) ≠ []) :
    ∃ pdf, (excel_to_barcode_pdf (.ok raw) input_excel output_pdf).outcome
        = .ok pdf
      ∧ pdf.tableData.head? = some
          ((expected_cols.filter (fun c => decide (c ∈ raw.cols))
            ++ ["Label 1 Barcode", "Label 2 Barcode",
                "Label 3 Barcode", "Label 4 Barcode"]).map Cell.str) := by
  rw [run_ok_eq raw input_excel output_pdf h]
  exact ⟨_, rfl, by simp [buildTableData, barcode_headers_eq]⟩

/-- Witness for C1: input columns in scrambled order
`Label Number 1, Artisan Name, S.No.` still give the fixed-order header. -/
theorem C1_header_row_witness :
    ∃ pdf, (excel_to_barcode_pdf
        (.ok { cols := ["Label Number 1", "Artisan Name", "S.No."],
               rows := [] }) "in.xlsx" "out.pdf").outcome = .ok pdf
      ∧ pdf.tableData.head? = some
          ((expected_cols.filter (fun c => decide
              (c ∈ ({ cols := ["Label Number 1", "Artisan Name", "S.No."],
                      rows := [] } : RawDF).cols))
            ++ ["Label 1 Barcode", "Label 2 Barcode",
                "Label 3 Barcode", "Label 4 Barcode"]).map Cell.str) :=
  C1_header_row
    { cols := ["Label Number 1", "Artisan Name", "S.No."], rows := [] }
    "in.xlsx" "out.pdf" (by decide)

/-- C10: on success, the header row and every data row of the assembled
table have exactly (number of selected text columns) + 4 cells. -/
theorem C10_row_lengths (raw : RawDF) (input_excel output_pdf : String)
    (h : expected_cols.filter (fun c => decide (c ∈ raw.cols)) ≠ []) :
    ∃ pdf, (excel_to_barcode_pdf (.ok raw) input_excel output_pdf).outcome
        = .ok pdf
      ∧ ∀ row ∈ pdf.tableData,
          row.length
            = (expected_cols.filter (fun c => decide (c ∈ raw.cols))).length
              + 4 := by
  rw [run_ok_eq raw input_excel output_pdf h]
  refine ⟨_, rfl, ?_⟩
  intro row hrow
  simp only [buildTableData, List.mem_cons, List.mem_map] at hrow
  rcases hrow with hrow | ⟨r, hr, hrow⟩
  · subst hrow
    simp [barcode_headers_eq]
  · subst hrow
    simp [processRow]

/-- Witness for C10 on the specification's scenario table. -/
theorem C10_row_lengths_witness :
    ∃ pdf, (excel_to_barcode_pdf (.ok sampleRaw) "in.xlsx" "out.pdf").outcome
        = .ok pdf
      ∧ ∀ row ∈ pdf.tableData,
          row.length
            = (expected_cols.filter
                (fun c => decide (c ∈ sampleRaw.cols))).length + 4 :=
  C10_row_lengths sampleRaw "in.xlsx" "out.pdf" (by decide)

/-- C5: a value that survives cleaning but cannot be encoded yields the
blank cell together with a single warning naming the value and the cause,
and the pipeline still succeeds with every row of the batch present. -/
theorem C5_failure_isolated (v : String) (w hgt : Nat) (raw : RawDF)
    (input_excel output_pdf : String)
    (h1 : cleanValue v ≠ "") (h2 : pyLower (cleanValue v) ≠ "nan")
    (h3 : code128Encodable (cleanValue v) = false)
    (h4 : expected_cols.filter (fun c => decide (c ∈ raw.cols)) ≠ []) :
    (generate_code128_barcode v w hgt).cell = Cell.str ""
    ∧ (generate_code128_barcode v w hgt).diags = [barcodeWarning v]
    ∧ ∃ pdf,
        (excel_to_barcode_pdf (.ok raw) input_excel output_pdf).outcome
          = .ok pdf
        ∧ pdf.tableData.length = raw.rows.length + 1 := by
  refine ⟨?_, ?_, ?_⟩
  · simp [generate_code128_barcode, h1, h2, h3]
  · simp [generate_code128_barcode, h1, h2, h3]
  · rw [run_ok_eq raw input_excel output_pdf h4]
    refine ⟨_, rfl, ?_⟩
    simp [buildTableData, projected_rows_length]

/-- Witness for C5: the non-ASCII value "é" fails to encode, its row keeps
a blank cell, and the scenario table still yields all its rows. -/
theorem C5_failure_isolated_witness :
    (generate_code128_barcode "é" 80 25).cell = Cell.str ""
    ∧ (generate_code128_barcode "é" 80 25).diags = [barcodeWarning "é"]
    ∧ ∃ pdf,
        (excel_to_barcode_pdf (.ok sampleRaw) "in.xlsx" "out.pdf").outcome
          = .ok pdf
        ∧ pdf.tableData.length = sampleRaw.rows.length + 1 :=
  C5_failure_isolated "é" 80 25 sampleRaw "in.xlsx" "out.pdf"
    (by decide) (by decide) (by decide) (by decide)

/-- C3 counterexample: the value "n a n" is, after trimming alone, neither
empty nor case-insensitively "nan", yet the encoder returns the empty cell
without entering the encoding step — because the code removes internal
spaces before its check. -/
theorem C3_counterexample :
    (pyStrip "n a n" ≠ "" ∧ pyLower (pyStrip "n a n") ≠ "nan")
    ∧ (generate_code128_barcode "n a n" 80 25).cell = Cell.str ""
    ∧ (generate_code128_barcode "n a n" 80 25).attempted = false := by
  decide

/-- C3 (amended): the encoder returns the blank cell without attempting
encoding exactly for the values that, after trimming and removing internal
spaces, are empty or case-insensitively "nan". -/
theorem C3_blank_iff (v : String) (w h : Nat) :
    ((generate_code128_barcode v w h).cell = Cell.str ""
        ∧ (generate_code128_barcode v w h).attempted = false)
      ↔ (cleanValue v = "" ∨ pyLower (cleanValue v) = "nan") := by
  unfold generate_code128_barcode
  by_cases h1 : cleanValue v = "" ∨ pyLower (cleanValue v) = "nan"
  · simp [h1]
  · by_cases h2 : code128Encodable (cleanValue v)
    · simp [h1, h2]
    · simp [h1, h2]

/-- C9: the Symbol Encoder is deterministic — the cell it returns is a
function of the cleaned value and the dimensions alone, and in particular
two calls with identical input value and identical dimensions produce equal
results. -/
theorem C9_encoder_deterministic (v1 v2 : String) (w hgt : Nat)
    (hclean : cleanValue v1 = cleanValue v2) :
    (generate_code128_barcode v1 w hgt).cell
        = (generate_code128_barcode v2 w hgt).cell
    ∧ (v1 = v2 →
        generate_code128_barcode v1 w hgt
          = generate_code128_barcode v2 w hgt) := by
  constructor
  · by_cases hA : cleanValue v2 = "" ∨ pyLower (cleanValue v2) = "nan"
    · simp [generate_code128_barcode, hclean, hA]
    · by_cases hB : code128Encodable (cleanValue v2)
      · simp [generate_code128_barcode, hclean, hA, hB]
      · simp [generate_code128_barcode, hclean, hA, hB]
  · intro hv
    rw [hv]

/-- Witness for C9: two calls on values with the same cleaned form "AB"
return the same cell. -/
theorem C9_encoder_deterministic_witness :
    (generate_code128_barcode " A B " 80 25).cell
        = (generate_code128_barcode "AB" 80 25).cell
    ∧ (" A B " = "AB" →
        generate_code128_barcode " A B " 80 25
          = generate_code128_barcode "AB" 80 25) :=
  C9_encoder_deterministic " A B " "AB" 80 25 (by decide)

theorem alphanum_ascii {c : Char} (h : c.isAlphanum = true) :
    c.toNat < 128 := by
  simp only [Char.isAlphanum, Char.isAlpha, Char.isDigit, Char.isUpper,
    Char.isLower, Bool.or_eq_true, Bool.and_eq_true, decide_eq_true_eq] at h
  rcases h with (⟨h1, h2⟩ | ⟨h1, h2⟩) | ⟨h1, h2⟩ <;>
  · rw [UInt32.le_def, BitVec.le_def] at h2
    exact Nat.lt_of_le_of_lt h2 (by decide)

/-- C8 counterexample: "nan" is a non-empty value made of ASCII letters
(unchanged by cleaning), yet the encoder returns the blank cell, not an
image of the requested size. -/
theorem C8_counterexample :
    "nan" ≠ ""
    ∧ "nan".data.all Char.isAlphanum = true
    ∧ cleanValue "nan" = "nan"
    ∧ (generate_code128_barcode "nan" 80 25).cell = Cell.str "" := by
  decide

/-- C8 (amended): for every value whose cleaned form is non-empty, consists
of ASCII letters/digits and is not case-insensitively "nan", the encoder
returns an image handle sized exactly to the requested width and height. -/
theorem C8_sized_image (v : String) (w hgt : Nat)
    (h1 : cleanValue v ≠ "")
    (h2 : (cleanValue v).data.all Char.isAlphanum = true)
    (h3 : pyLower (cleanValue v) ≠ "nan") :
    (generate_code128_barcode v w hgt).cell
      = Cell.img
          { payload := cleanValue v, module_height := 5, quiet_zone := 1 }
          w hgt := by
  have henc : code128Encodable (cleanValue v) = true := by
    unfold code128Encodable
    rw [List.all_eq_true] at h2 ⊢
    intro c hc
    exact decide_eq_true (alphanum_ascii (h2 c hc))
  simp [generate_code128_barcode, h1, h3, henc]

/-- Witness for C8 at the value "AB123" with the default dimensions. -/
theorem C8_sized_image_witness :
    (generate_code128_barcode "AB123" 80 25).cell
      = Cell.img
          { payload := cleanValue "AB123", module_height := 5,
            quiet_zone := 1 }
          80 25 :=
  C8_sized_image "AB123" 80 25 (by decide) (by decide) (by decide)

/-- C2: for every row of the loaded table, in table order, the assembled
row is the selected text cells verbatim (as strings, in the fixed column
order) followed, for fields "Label Number 1".."Label Number 4" in order,
by the cell the Symbol Encoder returns on that field's value at the
default dimensions 80×25; an absent column reads as the empty value and so
yields the blank placeholder. -/
theorem C2_row_assembly (raw : RawDF) (input_excel output_pdf : String)
    (hk : ∀ rr ∈ raw.rows, ∀ p ∈ rr, p.1 ∈ raw.cols)
    (h : expected_cols.filter (fun c => decide (c ∈ raw.cols)) ≠ []) :
    ∃ pdf, (excel_to_barcode_pdf (.ok raw) input_excel output_pdf).outcome
        = .ok pdf
      ∧ pdf.tableData.tail =
          raw.rows.map (fun rr =>
            (expected_cols.filter (fun c => decide (c ∈ raw.cols))).map
              (fun c => Cell.str (rawCell rr c))
            ++ ((List.range 4).map (fun i => i + 1)).map (fun i =>
                (generate_code128_barcode
                  (rawCell rr ("Label Number " ++ toString i)) 80 25).cell)) := by
  rw [run_ok_eq raw input_excel output_pdf h]
  refine ⟨_, rfl, ?_⟩
  simp only [buildTableData, List.tail_cons]
  rw [projectCols_rows, dropLN5_fill_rows, List.map_map, List.map_map]
  refine List.map_congr_left ?_
  intro rr hrr
  simp only [Function.comp, processRow]
  congr 1
  · refine List.map_congr_left ?_
    intro c hcav
    rw [proj_cell raw rr (hk rr hrr) c (List.mem_filter.mp hcav).1]
  · rw [List.map_map]
    refine List.map_congr_left ?_
    intro i hi
    simp only [Function.comp]
    have hmem : ("Label Number " ++ toString i) ∈ expected_cols := by
      have hall : ∀ j ∈ (List.range 4).map (fun j => j + 1),
          ("Label Number " ++ toString j) ∈ expected_cols := by decide
      exact hall i hi
    rw [proj_cell raw rr (hk rr hrr) ("Label Number " ++ toString i) hmem]

/-- Witness for C2 on the specification's scenario table. -/
theorem C2_row_assembly_witness :
    ∃ pdf, (excel_to_barcode_pdf (.ok sampleRaw) "in.xlsx" "out.pdf").outcome
        = .ok pdf
      ∧ pdf.tableData.tail =
          sampleRaw.rows.map (fun rr =>
            (expected_cols.filter
                (fun c => decide (c ∈ sampleRaw.cols))).map
              (fun c => Cell.str (rawCell rr c))
            ++ ((List.range 4).map (fun i => i + 1)).map (fun i =>
                (generate_code128_barcode
                  (rawCell rr ("Label Number " ++ toString i)) 80 25).cell)) :=
  C2_row_assembly sampleRaw "in.xlsx" "out.pdf" (by decide) (by decide)

/-- C7: the "Label Number 5" column is dropped unconditionally — the whole
run is unchanged under any rewriting of that column's content, and its
name never appears in the output header row. -/
theorem C7_label5_dropped (raw : RawDF) (input_excel output_pdf : String)
    (f : Option String → Option String) :
    excel_to_barcode_pdf (.ok (mapColRaw raw "Label Number 5" f))
        input_excel output_pdf
      = excel_to_barcode_pdf (.ok raw) input_excel output_pdf
    ∧ ∀ pdf hd,
        (excel_to_barcode_pdf (.ok raw) input_excel output_pdf).outcome
            = .ok pdf →
        pdf.tableData.head? = some hd →
        Cell.str "Label Number 5" ∉ hd := by
  constructor
  · by_cases h : expected_cols.filter (fun c => decide (c ∈ raw.cols)) = []
    · have h' : expected_cols.filter (fun c =>
          decide (c ∈ (mapColRaw raw "Label Number 5" f).cols)) = [] := by
        rw [mapColRaw_cols]
        exact h
      simp [excel_to_barcode_pdf, availableCols_pipeline, h, h']
    · have h' : expected_cols.filter (fun c =>
          decide (c ∈ (mapColRaw raw "Label Number 5" f).cols)) ≠ [] := by
        rw [mapColRaw_cols]
        exact h
      rw [run_ok_eq _ input_excel output_pdf h',
        run_ok_eq raw input_excel output_pdf h]
      simp only [mapColRaw_cols]
      rw [pipeline_rows_eq raw
        (expected_cols.filter (fun c => decide (c ∈ raw.cols)))
        (fun c hc => expected_ne_LN5 c (List.mem_filter.mp hc).1) f]
  · intro pdf hd hok hhd
    by_cases h : expected_cols.filter (fun c => decide (c ∈ raw.cols)) = []
    · simp [excel_to_barcode_pdf, availableCols_pipeline, h] at hok
    · rw [run_ok_eq raw input_excel output_pdf h] at hok
      injection hok with hok2
      subst hok2
      simp only [buildTableData, List.head?_cons, Option.some.injEq] at hhd
      subst hhd
      intro hmem
      rcases List.mem_map.mp hmem with ⟨x, hx, hxe⟩
      have hx5 : x = "Label Number 5" := Cell.str.inj hxe
      subst hx5
      rcases List.mem_append.mp hx with h1 | h2
      · exact absurd (List.mem_filter.mp h1).1 (by decide)
      · exact absurd h2 (by decide)

/-- Witness for C7: rewriting the "Label Number 5" content of a concrete
table changes nothing, and the concrete header carries no such column. -/
theorem C7_label5_dropped_witness :
    excel_to_barcode_pdf
        (.ok (mapColRaw sampleLN5 "Label Number 5" (fun _ => some "CHANGED")))
        "in.xlsx" "out.pdf"
      = excel_to_barcode_pdf (.ok sampleLN5) "in.xlsx" "out.pdf"
    ∧ Cell.str "Label Number 5" ∉
        [Cell.str "S.No.", Cell.str "Label 1 Barcode",
         Cell.str "Label 2 Barcode", Cell.str "Label 3 Barcode",
         Cell.str "Label 4 Barcode"] :=
  ⟨(C7_label5_dropped sampleLN5 "in.xlsx" "out.pdf"
      (fun _ => some "CHANGED")).1,
   (C7_label5_dropped sampleLN5 "in.xlsx" "out.pdf"
      (fun _ => some "CHANGED")).2
     { path := "out.pdf",
       tableData :=
        [[Cell.str "S.No.", Cell.str "Label 1 Barcode",
          Cell.str "Label 2 Barcode", Cell.str "Label 3 Barcode",
          Cell.str "Label 4 Barcode"],
         [Cell.str "1", Cell.str "", Cell.str "", Cell.str "",
          Cell.str ""]] }
     [Cell.str "S.No.", Cell.str "Label 1 Barcode",
      Cell.str "Label 2 Barcode", Cell.str "Label 3 Barcode",
      Cell.str "Label 4 Barcode"]
     (by rfl) (by rfl)⟩

end ExcelToPdf
